import Mathlib

/-!
# Verification of the listening-booth-dashboard event pipeline

Shallow embedding of the event aggregation and reporting pipeline of
`final-ticket-manager.js` and `venue-manager.js`:

* JS `Date` values are modelled as `Option Int` (milliseconds since the
  epoch); `none` stands for an *Invalid Date* (absent or unparsable
  `scheduling.config.startDate`).  Comparisons against `NaN` are `false`
  in JS, which the `jsAfter`/`jsAtOrBefore` helpers reproduce.
* JS arrays become `List`s; `Array.prototype.sort` is stable, and so is
  `List.insertionSort`, which is used to model it.
* HTTP responses become explicit inputs: each per-event ticket fetch is
  a value of `Attempt` (success payload or error with optional status),
  and a whole enrichment run takes a function from events to fetched
  `TicketsResult`s.
-/

namespace ListeningBooth

/-- An event record as returned by the upstream events API, restricted to the
fields the pipeline reads.  `startDate` is the already-parsed
`scheduling.config.startDate` in epoch milliseconds, `none` when the field is
missing or unparsable (JS `Invalid Date`). -/
structure Event where
  id : String
  title : String
  startDate : Option Int
  locationName : Option String
deriving Repr, DecidableEq

/-- JS `eventDate > now` where `eventDate` may be an Invalid Date:
any comparison involving `NaN` is `false`. -/
def jsAfter (eventDate : Option Int) (now : Int) : Bool :=
  match eventDate with
  | some t => now < t
  | none => false

/-- JS `eventDate <= now` where `eventDate` may be an Invalid Date:
any comparison involving `NaN` is `false`. -/
def jsAtOrBefore (eventDate : Option Int) (now : Int) : Bool :=
  match eventDate with
  | some t => t ≤ now
  | none => false

/-- Comparator key order used by the JS sorts
`(a, b) => new Date(a.start) - new Date(b.start)`.  When either date is
invalid the subtraction is `NaN` and the resulting order is
implementation-defined in JS; the model puts invalid dates first.  The
theorems below only quantify over lists of valid dates, where the model
coincides with JS exactly. -/
def dateKeyLe : Option Int → Option Int → Bool
  | none, _ => true
  | some _, none => false
  | some a, some b => a ≤ b

/-- Ascending order on events by start date (the upcoming-events sort). -/
def startLe (a b : Event) : Prop := dateKeyLe a.startDate b.startDate = true

/-- Descending order on events by start date (the past-events sort). -/
def startGe (a b : Event) : Prop := dateKeyLe b.startDate a.startDate = true

instance : DecidableRel startLe := fun a b =>
  decEq (dateKeyLe a.startDate b.startDate) true

instance : DecidableRel startGe := fun a b =>
  decEq (dateKeyLe b.startDate a.startDate) true

theorem dateKeyLe_total (a b : Option Int) :
    dateKeyLe a b = true ∨ dateKeyLe b a = true := by
  cases a <;> cases b <;> simp [dateKeyLe]
  omega

theorem dateKeyLe_trans {a b c : Option Int}
    (h1 : dateKeyLe a b = true) (h2 : dateKeyLe b c = true) :
    dateKeyLe a c = true := by
  cases a <;> cases b <;> cases c <;> simp_all [dateKeyLe]
  omega

instance : IsTotal Event startLe := ⟨fun _ _ => dateKeyLe_total _ _⟩

instance : IsTrans Event startLe := ⟨fun _ _ _ => dateKeyLe_trans⟩

instance : IsTotal Event startGe := ⟨fun _ _ => (dateKeyLe_total _ _).symm⟩

instance : IsTrans Event startGe := ⟨fun _ _ _ h1 h2 => dateKeyLe_trans h2 h1⟩

/-- Model of `getUpcomingEvents` of `venue-manager.js` (lines 79–109), with the network
fetch abstracted into the `events` argument: keep the events whose start date
is strictly after `now`, then sort ascending by start date. -/
def getUpcomingEvents (now : Int) (events : List Event) : List Event :=
  List.insertionSort startLe (events.filter fun e => jsAfter e.startDate now)

/-- Model of `getPastEvents` of `venue-manager.js` (lines 112–142): keep the events
whose start date is at or before `now`, then sort descending by start date. -/
def getPastEvents (now : Int) (events : List Event) : List Event :=
  List.insertionSort startGe (events.filter fun e => jsAtOrBefore e.startDate now)

/-- Tests whether `pat` is a prefix of `s` (character lists, used to model JS
`String.prototype.includes`). -/
def prefixMatches : List Char → List Char → Bool
  | [], _ => true
  | _ :: _, [] => false
  | a :: as, b :: bs => a == b && prefixMatches as bs

/-- Tests whether `pat` occurs contiguously somewhere in `s`. -/
def charsContain (pat : List Char) : List Char → Bool
  | [] => prefixMatches pat []
  | c :: rest => prefixMatches pat (c :: rest) || charsContain pat rest

/-- JS `title.toLowerCase()`, as the character list (character-wise
lowercasing, which agrees with JS on the ASCII titles involved). -/
def lowerChars (s : String) : List Char :=
  s.toList.map Char.toLower

/-- JS `s.includes(pat)` on an already-lowercased character list. -/
def strContains (s : List Char) (pat : String) : Bool :=
  charsContain pat.toList s

/-- The closed set of event types produced by `categorizeEvent`
(the source uses the corresponding string literals). -/
inductive EventType where
  | openMic | jamSession | workshop | fundraiser | concert
deriving Repr, DecidableEq

/-- Model of `categorizeEvent` of `final-ticket-manager.js` (lines 772–780): lower-case
the title and return the first keyword match, defaulting to `concert`. -/
def categorizeEvent (title : String) : EventType :=
  let t := lowerChars title
  if strContains t "open mic" then .openMic
  else if strContains t "jam" then .jamSession
  else if strContains t "lessons" || strContains t "songwriting" then .workshop
  else if strContains t "fundraiser" then .fundraiser
  else .concert

/-- Model of `isRSVPEvent` of `final-ticket-manager.js` (lines 783–788). -/
def isRSVPEvent (title : String) : Bool :=
  let t := lowerChars title
  strContains t "open mic" || strContains t "jam" || strContains t "lessons"

/-- The closed set of sales statuses assigned by the enrichment loop
(the source uses the corresponding string literals). -/
inductive SalesStatus where
  | low | urgent | high | medium
deriving Repr, DecidableEq

/-- Lines 721–729 of `final-ticket-manager.js`: `salesStatus` starts `low`,
becomes `urgent` when `daysFromNow <= 7 && ticketsSold === 0`, else `high`
when `ticketsSold >= 25`, else `medium` when `ticketsSold >= 10`.
`daysFromNow` is `none` when the start date is invalid (JS `NaN`, for which
`NaN <= 7` is `false`). -/
def salesStatusOf (ticketsSold : Nat) (daysFromNow : Option Int) : SalesStatus :=
  if (match daysFromNow with
      | some d => decide (d ≤ 7)
      | none => false) && ticketsSold == 0 then .urgent
  else if ticketsSold ≥ 25 then .high
  else if ticketsSold ≥ 10 then .medium
  else .low

/-- One ticket record; the pipeline only reads the `free` flag. -/
structure Ticket where
  free : Bool
deriving Repr, DecidableEq

/-- The value returned by `getEventTickets`: `success`, `tickets` and `total`
on the happy path, plus `error` on failure (the source's success object has
no `error` field, modelled as `none`). -/
structure TicketsResult where
  success : Bool
  error : Option String
  tickets : List Ticket
  total : Nat
deriving Repr, DecidableEq

/-- The failure value built at line 663 of `final-ticket-manager.js`:
`{ success: false, error: error.message, tickets: [], total: 0 }`. -/
def failedTicketsResult (msg : String) : TicketsResult :=
  { success := false, error := some msg, tickets := [], total := 0 }

/-- Outcome of one HTTP attempt against the per-event tickets endpoint:
either a response body (`tickets` and `total`, with absent fields already
defaulted to `[]`/`0` as the source does with `|| []` and `|| 0`), or an
error carrying `error.response?.status` and `error.message`. -/
inductive Attempt where
  | ok (tickets : List Ticket) (total : Nat)
  | err (status : Option Nat) (message : String)
deriving Repr, DecidableEq

/-- The retry loop of `getEventTickets` (lines 643–666) from attempt number
`attempt` on: a successful attempt returns the tagged success result; a 429
error with attempts remaining sleeps `attempt * 2000` ms and retries; any
other error returns the tagged failure.  The returned list records the delays
slept.  `none` models the `undefined` the JS function returns when the loop
body never runs (`retries < 1`). -/
def getEventTicketsFrom (fetch : Nat → Attempt) (retries attempt : Nat) :
    Nat → Option TicketsResult × List Nat
  | 0 => (none, [])
  | remaining + 1 =>
    match fetch attempt with
    | .ok tickets total =>
        (some { success := true, error := none, tickets := tickets, total := total }, [])
    | .err status msg =>
        if status == some 429 && decide (attempt < retries) then
          let rest := getEventTicketsFrom fetch retries (attempt + 1) remaining
          (rest.1, attempt * 2000 :: rest.2)
        else
          (some (failedTicketsResult msg), [])

/-- Model of `getEventTickets(eventId, retries = 3)` of `final-ticket-manager.js`,
with the network abstracted into `fetch` (the outcome of each numbered
attempt); also returns the list of rate-limit delays slept.  The loop runs
`attempt` from `1` while `attempt <= retries`, so it has `retries`
iterations at most, which is the structural bound passed to
`getEventTicketsFrom`. -/
def getEventTickets (fetch : Nat → Attempt) (retries : Nat := 3) :
    Option TicketsResult × List Nat :=
  getEventTicketsFrom fetch retries 1 retries

/-- JS `Math.ceil(a / b)` on integers with `b > 0`, as used for
`daysFromNow` (the dividend and divisor are exact integers in the source). -/
def ceilDiv (a b : Int) : Int := -((-a).fdiv b)

/-- An event together with the derived fields attached by the enrichment
loop of `getUpcomingEventsWithTickets` (lines 740–752). -/
structure EnrichedEvent where
  event : Event
  ticketsSold : Nat
  paidTickets : Nat
  freeTickets : Nat
  daysFromNow : Option Int
  salesStatus : SalesStatus
  eventType : EventType
  venue : String
  isPaid : Bool
  isFree : Bool
  isRSVPOnly : Bool
deriving Repr, DecidableEq

/-- The body of the enrichment loop (lines 709–757 of
`final-ticket-manager.js`) for one event, given the `TicketsResult` its
ticket fetch produced. -/
def enrichEvent (now : Int) (event : Event) (tr : TicketsResult) : EnrichedEvent :=
  let ticketsSold := tr.total
  let daysFromNow := event.startDate.map fun t => ceilDiv (t - now) 86400000
  let paidTickets := tr.tickets.filter fun t => !t.free
  let freeTickets := tr.tickets.filter fun t => t.free
  { event := event
    ticketsSold := ticketsSold
    paidTickets := paidTickets.length
    freeTickets := freeTickets.length
    daysFromNow := daysFromNow
    salesStatus := salesStatusOf ticketsSold daysFromNow
    eventType := categorizeEvent event.title
    venue := event.locationName.getD "The Listening Booth"
    isPaid := decide (0 < paidTickets.length)
    isFree := freeTickets.length == ticketsSold && decide (0 < ticketsSold)
    isRSVPOnly := ticketsSold == 0 && isRSVPEvent event.title }

/-- The upcoming slice consumed by the enrichment loop (lines 693–702):
filter to strictly-future events, sort ascending by start date, take the
first `limit`. -/
def upcomingSlice (now : Int) (events : List Event) (limit : Nat) : List Event :=
  (List.insertionSort startLe (events.filter fun e => jsAfter e.startDate now)).take limit

/-- Model of `getUpcomingEventsWithTickets` of `final-ticket-manager.js`
(lines 668–770), with the paginated event fetch abstracted into `events` and
each per-event ticket fetch into `fetch` (always a `TicketsResult`: with the
default `retries = 3` the retry loop always returns one, see
`getEventTickets`). -/
def getUpcomingEventsWithTickets (now : Int) (events : List Event)
    (fetch : Event → TicketsResult) (limit : Nat := 20) : List EnrichedEvent :=
  (upcomingSlice now events limit).map fun e => enrichEvent now e (fetch e)

/-- The `salesBreakdown` object (lines 816–821). -/
structure SalesBreakdown where
  high : Nat
  medium : Nat
  low : Nat
  urgent : Nat
deriving Repr, DecidableEq

/-- JS `daysFromNow <= 7` with `NaN` (invalid date) comparing `false`. -/
def jsDaysLe (daysFromNow : Option Int) (bound : Int) : Bool :=
  match daysFromNow with
  | some d => d ≤ bound
  | none => false

/-- The `summary` block of the report built by `generateTicketReport`
(lines 834–856), restricted to the fields the claims mention.
`topSellingEvents` keeps the title/tickets projection of line 849. -/
structure ReportSummary where
  totalUpcomingEvents : Nat
  totalTicketsSold : Nat
  totalPaidTickets : Nat
  totalFreeTickets : Nat
  averageTicketsPerEvent : ℚ
  ticketedEventsCount : Nat
  freeEventsCount : Nat
  salesBreakdown : SalesBreakdown
  topSellingEvents : List (String × Nat)
  urgentEvents : List EnrichedEvent
  thisWeekEvents : List EnrichedEvent
deriving Repr, DecidableEq

/-- The filter of lines 803–805: events counted as "ticketed" for the
average — `event.isPaid || (event.ticketsSold > 0 && !event.isRSVPOnly)`. -/
def isTicketedForAverage (e : EnrichedEvent) : Bool :=
  e.isPaid || (decide (0 < e.ticketsSold) && !e.isRSVPOnly)

/-- Descending order on enriched events by tickets sold, the comparator of
line 847 (`(a, b) => b.ticketsSold - a.ticketsSold`). -/
def soldGe (a b : EnrichedEvent) : Prop := b.ticketsSold ≤ a.ticketsSold

instance : DecidableRel soldGe := fun a b => Nat.decLe b.ticketsSold a.ticketsSold

instance : IsTotal EnrichedEvent soldGe := ⟨fun a b => Nat.le_total b.ticketsSold a.ticketsSold⟩

instance : IsTrans EnrichedEvent soldGe := ⟨fun _ _ _ h1 h2 => Nat.le_trans h2 h1⟩

/-- Model of `generateTicketReport` of `final-ticket-manager.js` (lines 790–882),
from the enriched event list produced by `getUpcomingEventsWithTickets`.
`Math.round(x * 10) / 10` is modelled over `ℚ` (`round` is `⌊x + 1/2⌋`,
as in JS for the non-negative values that arise here). -/
def generateTicketReport (events : List EnrichedEvent) : ReportSummary :=
  let totalTicketsSold := (events.map (·.ticketsSold)).sum
  let ticketedEvents := events.filter isTicketedForAverage
  { totalUpcomingEvents := events.length
    totalTicketsSold := totalTicketsSold
    totalPaidTickets := (events.map (·.paidTickets)).sum
    totalFreeTickets := (events.map (·.freeTickets)).sum
    averageTicketsPerEvent :=
      if 0 < ticketedEvents.length then
        ((round ((totalTicketsSold : ℚ) / ticketedEvents.length * 10) : ℤ) : ℚ) / 10
      else 0
    ticketedEventsCount := ticketedEvents.length
    freeEventsCount := (events.filter fun e => e.isFree || e.isRSVPOnly).length
    salesBreakdown :=
      { high := (events.filter fun e => e.salesStatus == .high).length
        medium := (events.filter fun e => e.salesStatus == .medium).length
        low := (events.filter fun e => e.salesStatus == .low).length
        urgent := (events.filter fun e => e.salesStatus == .urgent).length }
    topSellingEvents :=
      ((List.insertionSort soldGe (events.filter fun e => decide (0 < e.ticketsSold))).take 5).map
        fun e => (e.event.title, e.ticketsSold)
    urgentEvents := events.filter fun e => e.salesStatus == .urgent
    thisWeekEvents := events.filter fun e => jsDaysLe e.daysFromNow 7 }

/-- Modelled from the spec, for comparison with the code's average: the
average the claim describes, whose denominator counts the events that are
*not* classified RSVP-only or free ("excluding any event whose classification
is RSVP-only/free"), with `0` (not `NaN`) when that count is zero. -/
def specAverageTicketsPerEvent (events : List EnrichedEvent) : ℚ :=
  let totalTicketsSold := (events.map (·.ticketsSold)).sum
  let ticketedCount := (events.filter fun e => !(e.isRSVPOnly || e.isFree)).length
  if 0 < ticketedCount then
    ((round ((totalTicketsSold : ℚ) / ticketedCount * 10) : ℤ) : ℚ) / 10
  else 0

/-! ## Helper lemmas -/

theorem salesStatusOf_some (sold : Nat) (days : Int) :
    salesStatusOf sold (some days) =
      if days ≤ 7 ∧ sold = 0 then .urgent
      else if 25 ≤ sold then .high
      else if 10 ≤ sold then .medium
      else .low := by
  simp only [salesStatusOf]
  split_ifs <;> simp_all

/-- Unfolding of the average field of the report. -/
theorem average_of_report (events : List EnrichedEvent) :
    (generateTicketReport events).averageTicketsPerEvent =
      if 0 < (events.filter isTicketedForAverage).length then
        ((round ((((events.map (·.ticketsSold)).sum : ℕ) : ℚ) /
          (events.filter isTicketedForAverage).length * 10) : ℤ) : ℚ) / 10
      else 0 := rfl

/-! ## The claims -/

/-- C3. For every non-negative integer `ticketsSold` and every integer
`daysUntilEvent`, the computed sales status is `urgent` iff
`daysUntilEvent ≤ 7 ∧ ticketsSold = 0`; otherwise it is `high` when
`ticketsSold ≥ 25`, `medium` when `10 ≤ ticketsSold < 25` and `low`
otherwise; in particular `(0, 3)` is urgent, `(0, 30)` low and
`(30, 30)` high. -/
theorem salesStatus_classification :
    (∀ (sold : Nat) (days : Int),
      (salesStatusOf sold (some days) = .urgent ↔ days ≤ 7 ∧ sold = 0) ∧
      (¬(days ≤ 7 ∧ sold = 0) →
        salesStatusOf sold (some days) =
          if 25 ≤ sold then .high
          else if 10 ≤ sold then .medium
          else .low)) ∧
    salesStatusOf 0 (some 3) = .urgent ∧
    salesStatusOf 0 (some 30) = .low ∧
    salesStatusOf 30 (some 30) = .high := by
  refine ⟨fun sold days => ?_, by decide, by decide, by decide⟩
  rw [salesStatusOf_some]
  by_cases h1 : days ≤ 7 ∧ sold = 0
  · constructor
    · simp [h1]
    · intro h
      exact absurd h1 h
  · constructor
    · rw [if_neg h1]
      constructor
      · intro h
        split_ifs at h
      · intro h
        exact absurd h h1
    · intro h
      rw [if_neg h1]

/-- C3 witness: the pair `(5, 30)` is classified `low` via the classification
theorem. -/
theorem salesStatus_classification_witness :
    salesStatusOf 5 (some 30) = .low := by
  have h := (salesStatus_classification.1 5 30).2 (by omega)
  simpa using h

/-- C4. The event-type classifier lower-cases the title and returns the
first match in priority order — `"open mic"` → OpenMic, then `"jam"` →
JamSession, then `"lessons"`/`"songwriting"` → Workshop, then
`"fundraiser"` → Fundraiser — and Concert when no keyword matches; with the
spec's three examples. -/
theorem categorizeEvent_priority :
    (∀ title : String,
      (strContains (lowerChars title) "open mic" = true →
        categorizeEvent title = .openMic) ∧
      (strContains (lowerChars title) "open mic" = false →
        strContains (lowerChars title) "jam" = true →
        categorizeEvent title = .jamSession) ∧
      (strContains (lowerChars title) "open mic" = false →
        strContains (lowerChars title) "jam" = false →
        (strContains (lowerChars title) "lessons" = true ∨
          strContains (lowerChars title) "songwriting" = true) →
        categorizeEvent title = .workshop) ∧
      (strContains (lowerChars title) "open mic" = false →
        strContains (lowerChars title) "jam" = false →
        strContains (lowerChars title) "lessons" = false →
        strContains (lowerChars title) "songwriting" = false →
        strContains (lowerChars title) "fundraiser" = true →
        categorizeEvent title = .fundraiser) ∧
      (strContains (lowerChars title) "open mic" = false →
        strContains (lowerChars title) "jam" = false →
        strContains (lowerChars title) "lessons" = false →
        strContains (lowerChars title) "songwriting" = false →
        strContains (lowerChars title) "fundraiser" = false →
        categorizeEvent title = .concert)) ∧
    categorizeEvent "Open Mic Night" = .openMic ∧
    categorizeEvent "Spring Songwriting Workshop" = .workshop ∧
    categorizeEvent "Random Band Concert" = .concert := by
  refine ⟨fun title => ⟨?_, ?_, ?_, ?_, ?_⟩, by decide, by decide, by decide⟩ <;>
    · intros
      simp_all [categorizeEvent]

/-- C4 witness: the title `"Jam Night"` is classified JamSession via the priority
theorem (its lowered title contains `"jam"` but not `"open mic"`). -/
theorem categorizeEvent_priority_witness :
    categorizeEvent "Jam Night" = .jamSession :=
  (categorizeEvent_priority.1 "Jam Night").2.1 (by decide) (by decide)

/-- C10. Every enriched event carries exactly one of the four sales
statuses, so the salesBreakdown counts of any generated report partition the
event list: `high + medium + low + urgent = totalUpcomingEvents`. -/
theorem salesBreakdown_partitions (events : List EnrichedEvent) :
    (generateTicketReport events).salesBreakdown.high +
      (generateTicketReport events).salesBreakdown.medium +
      (generateTicketReport events).salesBreakdown.low +
      (generateTicketReport events).salesBreakdown.urgent =
      (generateTicketReport events).totalUpcomingEvents := by
  show (events.filter fun e => e.salesStatus == .high).length +
      (events.filter fun e => e.salesStatus == .medium).length +
      (events.filter fun e => e.salesStatus == .low).length +
      (events.filter fun e => e.salesStatus == .urgent).length = events.length
  induction events with
  | nil => rfl
  | cons e rest ih =>
    simp only [List.filter_cons, List.length_cons]
    cases e.salesStatus <;> simp <;> omega

/-- Every result the retry loop returns is either a tagged success or the
zero-count tagged failure. -/
theorem getEventTicketsFrom_shape (fetch : Nat → Attempt) (retries : Nat) :
    ∀ (fuel attempt : Nat) (r : TicketsResult),
      (getEventTicketsFrom fetch retries attempt fuel).1 = some r →
      r.success = true ∨ ∃ m, r = failedTicketsResult m := by
  intro fuel
  induction fuel with
  | zero =>
    intro attempt r h
    simp [getEventTicketsFrom] at h
  | succ n ih =>
    intro attempt r h
    rw [getEventTicketsFrom] at h
    cases hf : fetch attempt with
    | ok tickets total =>
      rw [hf] at h
      left
      cases h
      rfl
    | err status msg =>
      rw [hf] at h
      dsimp only at h
      by_cases hc : (status == some 429 && decide (attempt < retries)) = true
      · rw [if_pos hc] at h
        exact ih (attempt + 1) r h
      · rw [if_neg hc] at h
        cases h
        exact Or.inr ⟨msg, rfl⟩

/-- C7: `getEventTickets` retries an HTTP 429 up to the fixed count of
3 attempts with linearly increasing delay (`attempt × 2` seconds, so delays
2s then 4s) before surfacing failure; on retry exhaustion or any other error
it returns the tagged failure result (`success = false`, an error message,
zero counts) instead of throwing; with the default retry count it always
returns a result. -/
theorem getEventTickets_errors_tagged :
    (∀ (fetch : Nat → Attempt) (r : TicketsResult),
      (getEventTickets fetch 3).1 = some r → r.success = false →
      r.error.isSome = true ∧ r.tickets = [] ∧ r.total = 0) ∧
    (∀ fetch : Nat → Attempt,
      (∀ a, 1 ≤ a → a ≤ 3 → ∃ m, fetch a = .err (some 429) m) →
      ∃ m, getEventTickets fetch 3 = (some (failedTicketsResult m), [2000, 4000])) ∧
    (∀ (fetch : Nat → Attempt) (status : Option Nat) (msg : String),
      fetch 1 = .err status msg → status ≠ some 429 →
      getEventTickets fetch 3 = (some (failedTicketsResult msg), [])) ∧
    (∀ fetch : Nat → Attempt, ∃ r, (getEventTickets fetch 3).1 = some r) := by
  refine ⟨?_, ?_, ?_, ?_⟩
  · intro fetch r h hfail
    rcases getEventTicketsFrom_shape fetch 3 3 1 r h with hs | ⟨m, hm⟩
    · rw [hs] at hfail
      cases hfail
    · subst hm
      exact ⟨rfl, rfl, rfl⟩
  · intro fetch hall
    obtain ⟨m1, h1⟩ := hall 1 (by omega) (by omega)
    obtain ⟨m2, h2⟩ := hall 2 (by omega) (by omega)
    obtain ⟨m3, h3⟩ := hall 3 (by omega) (by omega)
    refine ⟨m3, ?_⟩
    simp [getEventTickets, getEventTicketsFrom, h1, h2, h3]
  · intro fetch status msg h1 hne
    simp [getEventTickets, getEventTicketsFrom, h1, hne]
  · intro fetch
    cases h1 : fetch 1 with
    | ok t1 n1 =>
      exact ⟨{ success := true, error := none, tickets := t1, total := n1 },
        by simp [getEventTickets, getEventTicketsFrom, h1]⟩
    | err s1 m1 =>
      by_cases hs1 : s1 = some 429
      · cases h2 : fetch 2 with
        | ok t2 n2 =>
          exact ⟨{ success := true, error := none, tickets := t2, total := n2 },
            by simp [getEventTickets, getEventTicketsFrom, h1, h2, hs1]⟩
        | err s2 m2 =>
          by_cases hs2 : s2 = some 429
          · cases h3 : fetch 3 with
            | ok t3 n3 =>
              exact ⟨{ success := true, error := none, tickets := t3, total := n3 },
                by simp [getEventTickets, getEventTicketsFrom, h1, h2, h3, hs1, hs2]⟩
            | err s3 m3 =>
              exact ⟨failedTicketsResult m3,
                by simp [getEventTickets, getEventTicketsFrom, h1, h2, h3, hs1, hs2]⟩
          · exact ⟨failedTicketsResult m2,
              by simp [getEventTickets, getEventTicketsFrom, h1, h2, hs1, hs2]⟩
      · exact ⟨failedTicketsResult m1,
          by simp [getEventTickets, getEventTicketsFrom, h1, hs1]⟩

/-- C7 witness. A non-429 error on the first attempt surfaces as the
tagged failure with no delay, via the tagging theorem. -/
theorem getEventTickets_errors_tagged_witness :
    getEventTickets (fun _ => Attempt.err none "timeout") 3 =
      (some (failedTicketsResult "timeout"), []) :=
  getEventTickets_errors_tagged.2.2.1 (fun _ => Attempt.err none "timeout") none "timeout"
    rfl (by simp)

/-- C8. A failed secondary ticket fetch for one event never aborts
enrichment of the others: the pipeline still produces exactly one enriched
entry per input event, the failed event's counts are degraded to zero, and
every entry for another event is unchanged compared to a run whose fetches
agree everywhere outside the failed event. -/
theorem enrichment_isolates_failures (now : Int) (events : List Event)
    (fetch fetch2 : Event → TicketsResult) (limit : Nat) (bad : Event) (msg : String)
    (hbad : fetch bad = failedTicketsResult msg)
    (hagree : ∀ e, e ≠ bad → fetch2 e = fetch e) :
    (getUpcomingEventsWithTickets now events fetch limit).length =
      (upcomingSlice now events limit).length ∧
    (∀ x ∈ getUpcomingEventsWithTickets now events fetch limit,
      x.event = bad → x.ticketsSold = 0 ∧ x.paidTickets = 0 ∧ x.freeTickets = 0) ∧
    (∀ i : Nat, (upcomingSlice now events limit)[i]? ≠ some bad →
      (getUpcomingEventsWithTickets now events fetch limit)[i]? =
        (getUpcomingEventsWithTickets now events fetch2 limit)[i]?) := by
  refine ⟨List.length_map _ _, ?_, ?_⟩
  · intro x hx hxbad
    rw [getUpcomingEventsWithTickets, List.mem_map] at hx
    obtain ⟨e, _, hex⟩ := hx
    have he : e = bad := by
      rw [← hxbad, ← hex]
      rfl
    subst he
    rw [← hex, hbad]
    refine ⟨rfl, ?_, ?_⟩ <;> simp [enrichEvent, failedTicketsResult]
  · intro i hi
    rw [getUpcomingEventsWithTickets, getUpcomingEventsWithTickets,
      List.getElem?_map, List.getElem?_map]
    cases hsl : (upcomingSlice now events limit)[i]? with
    | none => rfl
    | some e =>
      rw [hsl] at hi
      have : fetch2 e = fetch e := hagree e fun he => hi (by rw [he])
      simp [this]

/-- Ticket fetch used by the C8 witness: the fetch for event `"a"` fails,
the other events get one paid ticket. -/
def witnessFetch : Event → TicketsResult := fun e =>
  if e.id = "a" then failedTicketsResult "boom"
  else { success := true, error := none, tickets := [{ free := false }], total := 1 }

/-- C8 witness. On a concrete two-event list whose first fetch fails,
the isolation theorem yields one entry per input event. -/
theorem enrichment_isolates_failures_witness :
    (getUpcomingEventsWithTickets 0 [⟨"a", "Gig A", some 86400000, none⟩,
        ⟨"b", "Gig B", some 172800000, none⟩] witnessFetch 20).length =
      (upcomingSlice 0 [⟨"a", "Gig A", some 86400000, none⟩,
        ⟨"b", "Gig B", some 172800000, none⟩] 20).length :=
  (enrichment_isolates_failures 0
    [⟨"a", "Gig A", some 86400000, none⟩, ⟨"b", "Gig B", some 172800000, none⟩]
    witnessFetch witnessFetch 20 ⟨"a", "Gig A", some 86400000, none⟩ "boom"
    (by decide) (fun _ _ => rfl)).1

/-- C9 counterexample: `paidTickets + freeTickets` is the number of
ticket records returned, which can exceed the reported `total`: a response
with one paid ticket record and `total = 0` enriches to
`paid + free = 1 > 0 = ticketsSold`. -/
theorem paidFreeSum_counterexample :
    ¬ ∀ (now : Int) (e : Event) (tr : TicketsResult),
        (enrichEvent now e tr).paidTickets + (enrichEvent now e tr).freeTickets ≤
          (enrichEvent now e tr).ticketsSold := by
  intro h
  exact absurd
    (h 0 ⟨"e1", "Solo Show", some 86400000, none⟩
      { success := true, error := none, tickets := [{ free := false }], total := 0 })
    (by decide)

/-- C9 (amended): `paidTickets + freeTickets` equals the number of ticket
records fetched, so whenever the source's reported total is at least the
number of ticket records it returned (in particular always when the fetch
failed, where both are zero), `paidTickets + freeTickets ≤ ticketsSold`. -/
theorem paidFree_le_sold (now : Int) (e : Event) (tr : TicketsResult)
    (h : tr.tickets.length ≤ tr.total) :
    (enrichEvent now e tr).paidTickets + (enrichEvent now e tr).freeTickets ≤
      (enrichEvent now e tr).ticketsSold := by
  have hsplit : (tr.tickets.filter fun t => !t.free).length +
      (tr.tickets.filter fun t => t.free).length = tr.tickets.length := by
    have hp := (List.filter_append_perm (fun t : Ticket => !t.free) tr.tickets).length_eq
    simpa [Bool.not_not] using hp
  show (tr.tickets.filter fun t => !t.free).length +
      (tr.tickets.filter fun t => t.free).length ≤ tr.total
  omega

/-- C9 witness. A consistent response (two records, `total = 2`)
satisfies the amended bound via the amended theorem. -/
theorem paidFree_le_sold_witness :
    (enrichEvent 0 ⟨"e1", "Solo Show", some 86400000, none⟩
        { success := true, error := none, tickets := [{ free := false }, { free := true }],
          total := 2 }).paidTickets +
      (enrichEvent 0 ⟨"e1", "Solo Show", some 86400000, none⟩
        { success := true, error := none, tickets := [{ free := false }, { free := true }],
          total := 2 }).freeTickets ≤
      (enrichEvent 0 ⟨"e1", "Solo Show", some 86400000, none⟩
        { success := true, error := none, tickets := [{ free := false }, { free := true }],
          total := 2 }).ticketsSold :=
  paidFree_le_sold 0 ⟨"e1", "Solo Show", some 86400000, none⟩
    { success := true, error := none, tickets := [{ free := false }, { free := true }],
      total := 2 } (by decide)

/-- The enrichment stage over explicit per-event fetch results. -/
def enrichAll (now : Int) (inputs : List (Event × TicketsResult)) : List EnrichedEvent :=
  inputs.map fun p => enrichEvent now p.1 p.2

/-- Under source-consistent ticket data an event in the average's denominator
is never RSVP-only. -/
theorem ticketed_not_rsvpOnly (now : Int) (e : Event) (tr : TicketsResult)
    (h : tr.tickets.length ≤ tr.total)
    (ht : isTicketedForAverage (enrichEvent now e tr) = true) :
    (enrichEvent now e tr).isRSVPOnly = false := by
  simp only [isTicketedForAverage, enrichEvent, Bool.or_eq_true, Bool.and_eq_true,
    decide_eq_true_eq] at ht
  have hpos : 0 < tr.total := by
    rcases ht with hpaid | ⟨hsold, _⟩
    · have hle := List.length_filter_le (fun t => !t.free) tr.tickets
      omega
    · exact hsold
  have hne : tr.total ≠ 0 := by omega
  simp [enrichEvent, hne]

/-- A single enriched event whose sold tickets are all free: classified
`isFree`, yet counted in the code's average denominator. -/
def freeOnlyEnriched : List EnrichedEvent :=
  [enrichEvent 0
    { id := "e1", title := "Charity Night", startDate := some 864000000, locationName := none }
    { success := true, error := none,
      tickets := [{ free := true }, { free := true }, { free := true }, { free := true },
        { free := true }], total := 5 }]

/-- C1 counterexample. For one enriched event with 5 sold tickets, all
free (so classified free, not RSVP-only), the code's average is `5.0`
while the claim's formula — denominator excluding every RSVP-only/free
event, hence `0` here, giving average `0` — yields `0`. -/
theorem average_spec_counterexample :
    (generateTicketReport freeOnlyEnriched).averageTicketsPerEvent = 5 ∧
    specAverageTicketsPerEvent freeOnlyEnriched = 0 ∧
    (generateTicketReport freeOnlyEnriched).averageTicketsPerEvent ≠
      specAverageTicketsPerEvent freeOnlyEnriched := by
  refine ⟨?_, ?_, ?_⟩
  · norm_num [generateTicketReport, freeOnlyEnriched, enrichEvent, isTicketedForAverage,
      isRSVPEvent, lowerChars, strContains, charsContain, prefixMatches, round_eq]
  · norm_num [specAverageTicketsPerEvent, freeOnlyEnriched, enrichEvent, isRSVPEvent,
      lowerChars, strContains, charsContain, prefixMatches]
  · norm_num [generateTicketReport, specAverageTicketsPerEvent, freeOnlyEnriched, enrichEvent,
      isTicketedForAverage, isRSVPEvent, lowerChars, strContains, charsContain, prefixMatches,
      round_eq]

/-- C1 (amended). The average's denominator is the number of events with
paid tickets or with `ticketsSold > 0` that are not RSVP-only: it excludes
every RSVP-only event (for source-consistent ticket data) but *includes*
free events that sold tickets; with zero such events the average is `0`
(not NaN and not an error), and otherwise it is `totalTicketsSold` divided
by that count, rounded to one decimal place. -/
theorem average_formula (now : Int) (inputs : List (Event × TicketsResult))
    (hcons : ∀ p ∈ inputs, p.2.tickets.length ≤ p.2.total) :
    (∀ x ∈ (enrichAll now inputs).filter isTicketedForAverage, x.isRSVPOnly = false) ∧
    (((enrichAll now inputs).filter isTicketedForAverage).length = 0 →
      (generateTicketReport (enrichAll now inputs)).averageTicketsPerEvent = 0) ∧
    (0 < ((enrichAll now inputs).filter isTicketedForAverage).length →
      (generateTicketReport (enrichAll now inputs)).averageTicketsPerEvent =
        ((round (((((enrichAll now inputs).map (·.ticketsSold)).sum : ℕ) : ℚ) /
          ((enrichAll now inputs).filter isTicketedForAverage).length * 10) : ℤ) : ℚ) / 10) := by
  refine ⟨?_, ?_, ?_⟩
  · intro x hx
    rw [List.mem_filter] at hx
    obtain ⟨hmem, hticketed⟩ := hx
    rw [enrichAll, List.mem_map] at hmem
    obtain ⟨p, hp, hpx⟩ := hmem
    rw [← hpx]
    exact ticketed_not_rsvpOnly now p.1 p.2 (hcons p hp) (hpx ▸ hticketed)
  · intro h0
    rw [average_of_report, h0]
    simp
  · intro hpos
    rw [average_of_report, if_pos hpos]

/-- C1 witness. One event with two paid tickets: the denominator is 1 and
the average is `round(2/1*10)/10`, via the amended-average theorem. -/
theorem average_formula_witness :
    (generateTicketReport (enrichAll 0
      [({ id := "e1", title := "Solo Show", startDate := some 86400000, locationName := none },
        { success := true, error := none, tickets := [{ free := false }, { free := false }],
          total := 2 })])).averageTicketsPerEvent =
      ((round (((((enrichAll 0
        [({ id := "e1", title := "Solo Show", startDate := some 86400000, locationName := none },
          { success := true, error := none, tickets := [{ free := false }, { free := false }],
            total := 2 })]).map (·.ticketsSold)).sum : ℕ) : ℚ) /
        ((enrichAll 0
        [({ id := "e1", title := "Solo Show", startDate := some 86400000, locationName := none },
          { success := true, error := none, tickets := [{ free := false }, { free := false }],
            total := 2 })]).filter isTicketedForAverage).length * 10) : ℤ) : ℚ) / 10 :=
  (average_formula 0
    [({ id := "e1", title := "Solo Show", startDate := some 86400000, locationName := none },
      { success := true, error := none, tickets := [{ free := false }, { free := false }],
        total := 2 })]
    (by decide)).2.2 (by decide)

/-- The three upcoming events of the spec's end-to-end scenario, with "now"
at epoch 0: "Open Mic" 3 days out, "Jazz Night" 10 days out, "Fundraiser
Gala" 2 days out. -/
def scenarioEvents : List Event :=
  [{ id := "om", title := "Open Mic", startDate := some 259200000, locationName := none },
   { id := "jn", title := "Jazz Night", startDate := some 864000000, locationName := none },
   { id := "fg", title := "Fundraiser Gala", startDate := some 172800000, locationName := none }]

/-- Ticket data of the scenario: 0 tickets for "Open Mic", 12 paid for
"Jazz Night", 30 paid for "Fundraiser Gala". -/
def scenarioFetch : Event → TicketsResult := fun e =>
  if e.id = "jn" then
    { success := true, error := none, tickets := List.replicate 12 { free := false },
      total := 12 }
  else if e.id = "fg" then
    { success := true, error := none, tickets := List.replicate 30 { free := false },
      total := 30 }
  else { success := true, error := none, tickets := [], total := 0 }

/-- The report the pipeline produces on the scenario. -/
def scenarioReport : ReportSummary :=
  generateTicketReport (getUpcomingEventsWithTickets 0 scenarioEvents scenarioFetch 20)

/-- C2 counterexample. In the scenario the report's `urgentEvents` is not
empty: it contains exactly "Open Mic" (0 tickets, 3 days out) — the code
does not exempt RSVP-only events from the urgency classification. -/
theorem scenario_urgent_counterexample :
    scenarioReport.urgentEvents.map (fun e => e.event.title) = ["Open Mic"] ∧
    scenarioReport.urgentEvents ≠ [] := by
  constructor <;> decide

/-- C2 (amended). In the scenario, `urgentEvents` contains exactly the
RSVP-only "Open Mic" (the code classifies every 0-ticket event within 7 days
as urgent, without an RSVP-only exemption), `topSellingEvents` is
`[Fundraiser Gala (30), Jazz Night (12)]` in that order, and
`averageTicketsPerEvent = 21.0` over the 2 ticketed events. -/
theorem scenario_report_values :
    scenarioReport.urgentEvents.map (fun e => (e.event.title, e.ticketsSold)) =
      [("Open Mic", 0)] ∧
    scenarioReport.topSellingEvents = [("Fundraiser Gala", 30), ("Jazz Night", 12)] ∧
    scenarioReport.ticketedEventsCount = 2 ∧
    scenarioReport.averageTicketsPerEvent = 21 := by
  refine ⟨by decide, by decide, by decide, ?_⟩
  show (generateTicketReport
    (getUpcomingEventsWithTickets 0 scenarioEvents scenarioFetch 20)).averageTicketsPerEvent = 21
  have h1 : ((getUpcomingEventsWithTickets 0 scenarioEvents scenarioFetch 20).filter
      isTicketedForAverage).length = 2 := by decide
  have h2 : (((getUpcomingEventsWithTickets 0 scenarioEvents scenarioFetch 20).map
      (·.ticketsSold)).sum : ℕ) = 42 := by decide
  rw [average_of_report, h1, h2]
  norm_num [round_eq]

/-- C5. For an event list in which every start date is valid, the
upcoming filter (strictly after now) and past filter (at or before now)
partition the list: concatenated they are a permutation of the input (each
event exactly once, no duplicates, no omissions), no event is in both,
upcoming is sorted ascending and past descending by start time. -/
theorem upcoming_past_partition (now : Int) (events : List Event)
    (hv : ∀ e ∈ events, e.startDate.isSome = true) :
    (getUpcomingEvents now events ++ getPastEvents now events).Perm events ∧
    (∀ e ∈ getUpcomingEvents now events, e ∉ getPastEvents now events) ∧
    (getUpcomingEvents now events).Sorted startLe ∧
    (getPastEvents now events).Sorted startGe := by
  refine ⟨?_, ?_, List.sorted_insertionSort _ _, List.sorted_insertionSort _ _⟩
  · have h1 : (getUpcomingEvents now events).Perm
        (events.filter fun e => jsAfter e.startDate now) :=
      List.perm_insertionSort _ _
    have h2 : (getPastEvents now events).Perm
        (events.filter fun e => jsAtOrBefore e.startDate now) :=
      List.perm_insertionSort _ _
    have h3 : (events.filter fun e => jsAtOrBefore e.startDate now) =
        events.filter fun e => !jsAfter e.startDate now := by
      apply List.filter_congr
      intro e he
      obtain ⟨t, ht⟩ := Option.isSome_iff_exists.mp (hv e he)
      simp only [jsAfter, jsAtOrBefore, ht, ← decide_not]
      exact decide_eq_decide.mpr (by omega)
    have hstep : (getUpcomingEvents now events ++ getPastEvents now events).Perm
        ((events.filter fun e => jsAfter e.startDate now) ++
          (events.filter fun e => !jsAfter e.startDate now)) := by
      rw [← h3]
      exact h1.append h2
    exact hstep.trans (List.filter_append_perm _ _)
  · intro e hup hpast
    have hu : jsAfter e.startDate now = true :=
      (List.mem_filter.mp ((List.mem_insertionSort startLe).mp hup)).2
    have hp : jsAtOrBefore e.startDate now = true :=
      (List.mem_filter.mp ((List.mem_insertionSort startGe).mp hpast)).2
    cases hd : e.startDate with
    | none => rw [hd] at hu; exact absurd hu (by simp [jsAfter])
    | some t =>
      rw [hd] at hu hp
      simp only [jsAfter, jsAtOrBefore, decide_eq_true_eq] at hu hp
      omega

/-- C5 witness. The partition theorem applied to a concrete two-event
list (one future, one past event, both with valid dates). -/
theorem upcoming_past_partition_witness :
    (getUpcomingEvents 0 [⟨"a", "Gig A", some 100, none⟩, ⟨"b", "Gig B", some (-100), none⟩] ++
      getPastEvents 0 [⟨"a", "Gig A", some 100, none⟩, ⟨"b", "Gig B", some (-100), none⟩]).Perm
      [⟨"a", "Gig A", some 100, none⟩, ⟨"b", "Gig B", some (-100), none⟩] :=
  (upcoming_past_partition 0
    [⟨"a", "Gig A", some 100, none⟩, ⟨"b", "Gig B", some (-100), none⟩] (by decide)).1

/-- C6. An event with an absent/unparsable start date is excluded from
both the upcoming result and the past result (both JS date comparisons
against now are false on an Invalid Date); the filters are total functions,
so no crash. -/
theorem invalid_date_excluded (now : Int) (events : List Event) (e : Event)
    (h : e.startDate = none) :
    e ∉ getUpcomingEvents now events ∧ e ∉ getPastEvents now events := by
  constructor
  · intro hm
    have hu : jsAfter e.startDate now = true :=
      (List.mem_filter.mp ((List.mem_insertionSort startLe).mp hm)).2
    rw [h] at hu
    exact absurd hu (by simp [jsAfter])
  · intro hm
    have hp : jsAtOrBefore e.startDate now = true :=
      (List.mem_filter.mp ((List.mem_insertionSort startGe).mp hm)).2
    rw [h] at hp
    exact absurd hp (by simp [jsAtOrBefore])

/-- C6 witness. A concrete invalid-date event is in neither result even
when present in the input list, via the exclusion theorem. -/
theorem invalid_date_excluded_witness :
    (⟨"x", "TBD Show", none, none⟩ : Event) ∉
      getUpcomingEvents 0 [⟨"x", "TBD Show", none, none⟩, ⟨"a", "Gig A", some 100, none⟩] ∧
    (⟨"x", "TBD Show", none, none⟩ : Event) ∉
      getPastEvents 0 [⟨"x", "TBD Show", none, none⟩, ⟨"a", "Gig A", some 100, none⟩] :=
  invalid_date_excluded 0 [⟨"x", "TBD Show", none, none⟩, ⟨"a", "Gig A", some 100, none⟩]
    ⟨"x", "TBD Show", none, none⟩ rfl

end ListeningBooth
